import Mathlib

/-!
Verification of the conversation-state machine and intent dispatcher of a
WhatsApp assistant bot. The definitions below are a shallow embedding of
the Python source (`whatsapp.py`): pure string helpers mirror Python
string semantics, and the dispatcher is modelled as a function from an
oracle (the results of all external calls made while processing one
message), the inbound message, and the in-memory conversation state, to
the new state plus the observable effects (connector invocations and
outbound replies).
-/

set_option maxRecDepth 4000
set_option linter.unusedVariables false

/-- Python word character for `\b` boundaries: `[a-zA-Z0-9_]` (ASCII input). -/
def isPyWordChar (c : Char) : Bool := c.isAlphanum || c = '_'

/-- Python whitespace, as used by `str.strip()` and `\s`. -/
def isPySpace (c : Char) : Bool :=
  c = ' ' || c = '\t' || c = '\n' || c = '\r' || c = '\x0b' || c = '\x0c'

/-- Python `str.lower()` on ASCII text. -/
def pyLower (s : List Char) : List Char := s.map Char.toLower

/-- Python `str.strip()`. -/
def pyStrip (s : List Char) : List Char :=
  ((s.dropWhile isPySpace).reverse.dropWhile isPySpace).reverse

/-- Is `pre` a prefix of `s`? -/
def listIsPre : List Char → List Char → Bool
  | [], _ => true
  | _ :: _, [] => false
  | c :: cs, d :: ds => c = d && listIsPre cs ds

/-- Python substring containment: `sub in hay`. -/
def pyInStr (sub : List Char) : List Char → Bool
  | [] => listIsPre sub []
  | c :: t => listIsPre sub (c :: t) || pyInStr sub t

/-- Python `str.startswith`. -/
def pyStartsWith (pre s : List Char) : Bool := listIsPre pre s

/-- Python `str.endswith`. -/
def pyEndsWith (suf s : List Char) : Bool := listIsPre suf.reverse s.reverse

/-- First whitespace-separated word of a string; `[]` when there is none
(mirrors `message.split()[0] if message.split() else ""`). -/
def pyFirstWord (s : List Char) : List Char :=
  (s.dropWhile isPySpace).takeWhile (fun c => !isPySpace c)

/-- `sub in hay` for any of the given keyword strings
(`any(keyword in message for keyword in ks)`). -/
def containsAnyKeyword (ks : List String) (hay : List Char) : Bool :=
  ks.any (fun k => pyInStr k.data hay)

/-! ### A small regex engine

Just enough of Python `re` for the patterns appearing in
`is_search_intent`: literal characters, `\s+`, `.*`, alternation groups
and `\b` word boundaries, with `re.search` (match anywhere) semantics. -/

/-- Character classes used by the patterns. -/
inductive CC where
  | exact : Char → CC
  | space : CC
  | dot : CC
  | void : CC
deriving DecidableEq, Repr

def CC.eval : CC → Char → Bool
  | .exact c, d => d = c
  | .space, d => isPySpace d
  | .dot, d => d ≠ '\n'
  | .void, _ => false

/-- Regular expressions over the needed constructs. `star` is restricted
to character classes, which is all the source patterns use. -/
inductive RE where
  | one : CC → RE
  | star : CC → RE
  | seq : RE → RE → RE
  | alt : RE → RE → RE
  | wb : RE
deriving DecidableEq, Repr

/-- All ways `f*` can consume a prefix: the matcher state is the last
consumed character (for `\b`) plus the remaining input. -/
def starRun (f : CC) : Option Char → List Char → List (Option Char × List Char)
  | p, [] => [(p, [])]
  | p, c :: t => (p, c :: t) :: (if f.eval c then starRun f (some c) t else [])

def wordAt : Option Char → Bool
  | none => false
  | some c => isPyWordChar c

def headWord : List Char → Bool
  | [] => false
  | c :: _ => isPyWordChar c

/-- Nondeterministic matcher: all states reachable after matching `r`. -/
def RE.run : RE → Option Char → List Char → List (Option Char × List Char)
  | .one _, _, [] => []
  | .one f, _, c :: t => if f.eval c then [(some c, t)] else []
  | .star f, p, s => starRun f p s
  | .seq r1 r2, p, s => ((RE.run r1 p s).map (fun st => RE.run r2 st.1 st.2)).flatten
  | .alt r1 r2, p, s => RE.run r1 p s ++ RE.run r2 p s
  | .wb, p, s => if wordAt p ≠ headWord s then [(p, s)] else []

/-- `re.search`: does `r` match starting at some position of `s`? -/
def reSearchAux (r : RE) : Option Char → List Char → Bool
  | p, [] => !(RE.run r p []).isEmpty
  | p, c :: t => !(RE.run r p (c :: t)).isEmpty || reSearchAux r (some c) t

def reSearch (r : RE) (s : List Char) : Bool := reSearchAux r none s

/-- The empty regex (matches the empty string). -/
def epsRE : RE := RE.star CC.void

/-- One pattern character: a space in the builder string stands for `\s+`. -/
def charRE (c : Char) : RE :=
  if c = ' ' then RE.seq (RE.one CC.space) (RE.star CC.space)
  else RE.one (CC.exact c)

/-- Build a regex from a builder string (space = `\s+`). -/
def strRE (w : String) : RE := w.data.foldr (fun c r => RE.seq (charRE c) r) epsRE

/-- Alternation over a list of regexes. -/
def altRE : List RE → RE
  | [] => RE.one CC.void
  | [r] => r
  | r :: t => RE.alt r (altRE t)

def wordsAlt (ws : List String) : RE := altRE (ws.map strRE)

/-- `\b(w1|w2|...)\b`. -/
def wbGroup (ws : List String) : RE := RE.seq RE.wb (RE.seq (wordsAlt ws) RE.wb)

def dotStar : RE := RE.star CC.dot

def questionWords : List String := ["what", "how", "why", "when", "where", "which", "who"]

/-- `\b(what|how|...)\b.*\?` -/
def patQuestionMark : RE :=
  RE.seq RE.wb (RE.seq (wordsAlt questionWords)
    (RE.seq RE.wb (RE.seq dotStar (RE.one (CC.exact '?')))))

/-- `\b(what|how|...)\s+(is|are|was|were|do|does|did|can|could|should|would)\b` -/
def patQuestionAux : RE :=
  RE.seq RE.wb (RE.seq (wordsAlt questionWords)
    (RE.seq (charRE ' ')
      (RE.seq (wordsAlt ["is", "are", "was", "were", "do", "does", "did", "can", "could", "should", "would"]) RE.wb)))

/-- `\b(best|top|latest|newest|recent|current)\b.*\b(in|for|about|on)\b` -/
def patBestIn : RE :=
  RE.seq RE.wb (RE.seq (wordsAlt ["best", "top", "latest", "newest", "recent", "current"])
    (RE.seq RE.wb (RE.seq dotStar (wbGroup ["in", "for", "about", "on"]))))

/-- The search-intent patterns of `is_search_intent`, in source order. -/
def searchPatterns : List RE :=
  [ patQuestionMark
  , patQuestionAux
  , wbGroup ["find", "search", "look for", "tell me about", "explain", "show me"]
  , patBestIn
  , wbGroup ["how to", "ways to", "steps to"]
  , wbGroup ["what is", "what are", "what\x27s"]
  , wbGroup ["learn about", "information about", "details about"]
  , wbGroup ["compare", "vs", "versus", "difference between"]
  , wbGroup ["recommend", "suggest", "advice"]
  , wbGroup ["pros and cons", "advantages", "disadvantages"]
  , wbGroup ["latest in", "trends in", "news about", "updates on"]
  , wbGroup ["technology", "tech", "AI", "artificial intelligence", "machine learning"]
  , wbGroup ["definition of", "meaning of", "explain"]
  , wbGroup ["guide to", "tutorial on", "instructions for"] ]

def email_keywords : List String := ["send email", "email to", "draft email", "compose email"]
def contact_keywords : List String := ["add contact", "delete contact", "update contact", "contact info"]
def calendar_keywords : List String := ["create meeting", "schedule", "calendar", "appointment", "book"]
def place_keywords : List String := ["find places", "restaurants near", "coffee shops", "best pizza in"]

def imperative_starters : List String :=
  ["find", "search", "look", "show", "tell", "explain", "help", "get"]

/-- Lowered and stripped message, as computed at the top of `is_search_intent`
(`message.lower().strip()`). -/
def searchMsgLower (message : String) : List Char := pyStrip (pyLower message.data)

/-- The short-message / command guard of `is_search_intent`. -/
def searchShortOrCmd (ml : List Char) : Bool := ml.length < 5 || pyStartsWith ['/'] ml

/-- The keyword-exclusion guard of `is_search_intent`. -/
def searchExcluded (ml : List Char) : Bool :=
  containsAnyKeyword (email_keywords ++ contact_keywords ++ calendar_keywords ++ place_keywords) ml

/-- Shallow embedding of `is_search_intent` from `whatsapp.py`. -/
def is_search_intent (message : String) : Bool :=
  let ml := searchMsgLower message
  if searchShortOrCmd ml then false
  else if searchExcluded ml then false
  else if searchPatterns.any (fun r => reSearch r ml) then true
  else if pyEndsWith ['?'] ml then true
  else if imperative_starters.any (fun w => w.data == pyFirstWord ml) then true
  else false

/-! ### Conversation state, oracle and effects -/

/-- A pending email draft, as stored in `pending_email_drafts`. -/
structure Draft where
  to_email : String
  subject : String
  email_body : String
deriving DecidableEq, Repr

/-- The fields of the extractor JSON consumed by the modelled handlers. -/
structure IntentData where
  intent : String
  recipient_email : Option String
  recipient_name : Option String
  subject : Option String
  email_body : Option String
  place_query : Option String
  place_location : Option String
  search_query : Option String
deriving DecidableEq, Repr

/-- Outcome of the extraction task, as observed by the dispatcher:
`ok` is a parsed JSON record; `failed` is a `None` result (the extractor
caught its own internal failure or 20s timeout); `timedOut` is the
25s `asyncio.wait_for` in the dispatcher timing out. -/
inductive ExtractOutcome where
  | ok : IntentData → ExtractOutcome
  | failed : ExtractOutcome
  | timedOut : ExtractOutcome
deriving DecidableEq, Repr

/-- Outcome of `asyncio.wait_for(send_email_resend(...), 30.0)`. -/
inductive SendOutcome where
  | ok : String → SendOutcome
  | err : String → SendOutcome
  | timedOut : SendOutcome
deriving DecidableEq, Repr

/-- Outcome of `asyncio.wait_for(revise_email_with_ai(...), 20.0)`:
`ok` carries the three revised fields parsed from the model JSON. -/
inductive ReviseOutcome where
  | ok : Draft → ReviseOutcome
  | failed : ReviseOutcome
  | timedOut : ReviseOutcome
deriving DecidableEq, Repr

/-- Results of all external calls that may be made while processing one
message. Passing them as one record makes each call deterministic for
that message; each is consulted at most once per message. -/
structure Oracle where
  transcription : Option String
  extraction : ExtractOutcome
  sendResult : SendOutcome
  revision : ReviseOutcome
  contactLookup : Option String
  searchReply : Option String
  placeReply : String
  handlerReply : String
  timeReply : String
  dateReply : String
deriving DecidableEq, Repr

/-- Python-dict model: association list with unique keys in practice. -/
abbrev Dict (α : Type) : Type := List (String × α)

def dictGet {α : Type} (k : String) : Dict α → Option α
  | [] => none
  | (k', v) :: t => if k' = k then some v else dictGet k t

/-- `d[k] = v`: replace in place when present, else append. -/
def dictSet {α : Type} (k : String) (v : α) : Dict α → Dict α
  | [] => [(k, v)]
  | (k', v') :: t => if k' = k then (k', v) :: t else (k', v') :: dictSet k v t

/-- `d.pop(k)` for a key known to be present: drop the binding. -/
def dictPop {α : Type} (k : String) : Dict α → Dict α
  | [] => []
  | (k', v') :: t => if k' = k then t else (k', v') :: dictPop k t

/-- The keys of the dictionary are pairwise distinct (true of every real
Python dict; the invariant our list model must preserve). -/
def keysNodup {α : Type} (d : Dict α) : Prop := (d.map Prod.fst).Nodup

/-- Number of bindings of key `k`. -/
def keyCount {α : Type} (k : String) (d : Dict α) : Nat :=
  (d.filter (fun p => p.1 = k)).length

/-- The three module-level conversation-state dictionaries. -/
structure ConvState where
  drafts : Dict Draft
  delayed : Dict String
  places : Dict String

/-- Observable effects of processing one message: invocations of the
send-email connector, of `transcribe_audio`, of
`handle_search_query_optimized`, of `find_places_optimized`, and the
outbound replies to the sender. -/
structure Effects where
  emailsSent : List (String × String × String)
  transcribed : List String
  webSearches : List String
  placeSearches : List (String × String)
  replies : List String
deriving DecidableEq, Repr

def noFx : Effects := ⟨[], [], [], [], []⟩

def replyFx (r : String) : Effects := ⟨[], [], [], [], [r]⟩

/-- Python truthiness of an optional string (`None` and `""` are falsy). -/
def truthyOpt : Option String → Bool
  | none => false
  | some s => s ≠ ""

/-- `not place_location or place_location.lower() in ["", "null", "none"]`. -/
def isNullish (l : Option String) : Bool :=
  match l with
  | none => true
  | some s => s = "" || pyLower s.data = "null".data || pyLower s.data = "none".data

/-! ### Reply strings (from the source f-strings) -/

def approvalPhrases : List String :=
  ["yes", "send it", "please send", "go ahead", "confirm", "approve"]

def cancellationPhrases : List String :=
  ["no", "cancel", "don\x27t send", "do not send"]

def containsApproval (t : List Char) : Bool := containsAnyKeyword approvalPhrases t

def containsCancellation (t : List Char) : Bool := containsAnyKeyword cancellationPhrases t

def dateTimePhrases : List String :=
  [ "what is the date", "what\x27s the date", "what date is it"
  , "what is today\x27s date", "what\x27s today\x27s date", "date today"
  , "what time is it", "what\x27s the time", "current time", "time now" ]

def timeSubPhrases : List String := ["time", "what time"]

def isDateTimeQuery (bodyLower : List Char) : Bool :=
  containsAnyKeyword dateTimePhrases bodyLower

def wantsTime (bodyLower : List Char) : Bool :=
  containsAnyKeyword timeSubPhrases bodyLower

def transcribeFailReply : String :=
  "Sorry, I couldn\x27t transcribe your voice message. Please try again."

def emailSentReply (d : Draft) : String :=
  "✅ EMAIL SENT SUCCESSFULLY!\n\nTo: " ++ d.to_email ++ "\nSubject: " ++ d.subject ++
  "\n\nYour email has been delivered!"

def emailFailReply (result : String) : String :=
  "❌ Failed to send email. Error: " ++ result

def sendTimeoutReply : String := "⏱️ Email sending timed out. Please try again."

def cancelReply : String := "❌ Email draft cancelled. No email was sent."

def revisedDraftReply (d : Draft) : String :=
  "Here is your revised email draft:\n\nTo: " ++ d.to_email ++ "\nSubject: " ++ d.subject ++
  "\n\n" ++ d.email_body ++
  "\n\nReply \x27Yes, send it\x27 to send this email, provide more editing instructions, or \x27No\x27 to cancel."

def reviseFailReply : String :=
  "Sorry, I couldn\x27t revise the email. Please try again or reply \x27Yes\x27 to send the original draft."

def reviseTimeoutReply : String :=
  "⏱️ Email revision timed out. Please try again or reply \x27Yes\x27 to send the original draft."

def processingTimeoutReply : String :=
  "⏱️ Processing timed out. Please try again with a simpler request."

def draftProposalReply (d : Draft) : String :=
  "Here is your email draft:\n\nTo: " ++ d.to_email ++ "\nSubject: " ++ d.subject ++
  "\n\n" ++ d.email_body ++
  "\n\nReply \x27Yes, send it\x27 to send this email, or \x27No\x27 to cancel."

def lookupFailReply (name : String) : String :=
  "❌ Couldn\x27t find an email for " ++ name ++ " in your contacts."

def missingDetailsReply : String :=
  "❌ Couldn\x27t extract all email details. Please try again."

def placeUnderstandFailReply : String :=
  "Sorry, I couldn\x27t understand what kind of place you\x27re looking for."

def placeDetailsUnderstandFailReply : String :=
  "Sorry, I couldn\x27t understand which place you\x27re asking about."

def askAreaReply : String := "Sure—what area should I search in?"

def webSearchUnderstandFailReply : String :=
  "Sorry, I couldn\x27t understand what you want to search for."

def webSearchErrReply : String :=
  "❌ Something went wrong with the search. Please try again later."

def capabilityReply (body : String) : String :=
  "Hi! You said: " ++ body ++
  "\n\nI can help you:\n📧 Send emails\n👤 Add/update/delete contacts\n📋 List all contacts\n🔍 Look up contact info\n📅 Manage your calendar\n🗺️ Find places nearby\n🔍 Search the web for information\n\nContact commands:\n• \x27show all contacts\x27 - List all your contacts\n• \x27lookup [name]\x27 - Find specific contact info\n• \x27add contact [name], [email], [phone]\x27 - Add new contact\n\nCalendar commands:\n• \x27setup my calendar\x27 - Connect Google Calendar\n• \x27create meeting tomorrow 2pm to 3pm\x27 - Create single events\n• \x27create multiple meetings: Team standup tomorrow 9am, Client call Friday 2pm\x27 - Create multiple events\n• \x27list my events\x27 - Show upcoming events\n• \x27delete my meeting today\x27 - Delete single event\n• \x27delete my meetings for today and tomorrow\x27 - Delete multiple events\n\nPlace search:\n• \x27Find best pizza in Downtown Dubai\x27\n• \x27What are the top sushi spots near me?\x27\n\nWeb search:\n• \x27What is the latest in EV technology?\x27\n• \x27How to write a resignation email?\x27"

/-! ### Intent handlers that touch conversation state -/

/-- Tail of `handle_email_intent_optimized` once the recipient address is
settled: create the draft only when address, subject and body are all
truthy. The draft is written with one dictionary assignment. -/
def emailDraftFinish (data : IntentData) (sender : String) (st : ConvState)
    (toEmail : Option String) : ConvState × Effects :=
  if truthyOpt toEmail && truthyOpt data.subject && truthyOpt data.email_body then
    let d : Draft := ⟨toEmail.getD "", data.subject.getD "", data.email_body.getD ""⟩
    (⟨dictSet sender d st.drafts, st.delayed, st.places⟩, replyFx (draftProposalReply d))
  else
    (st, replyFx missingDetailsReply)

/-- `handle_email_intent_optimized`: resolve the recipient (by contact
lookup when only a name is given), then propose a draft. -/
def handle_email_intent_optimized (o : Oracle) (data : IntentData) (sender : String)
    (st : ConvState) : ConvState × Effects :=
  if !truthyOpt data.recipient_email && truthyOpt data.recipient_name then
    if truthyOpt o.contactLookup then
      emailDraftFinish data sender st o.contactLookup
    else
      (st, replyFx (lookupFailReply (data.recipient_name.getD "")))
  else
    emailDraftFinish data sender st data.recipient_email

/-- `handle_place_intent_optimized`. In the `find_place` branch a pending
place query for the sender, when one exists, is popped and becomes the
search term, while the freshly extracted `place_query` becomes the
location; with no location the query is stored as pending and the sender
is asked for an area. -/
def handle_place_intent_optimized (o : Oracle) (data : IntentData) (sender : String)
    (st : ConvState) : ConvState × Effects :=
  if data.intent = "find_place" then
    if !truthyOpt data.place_query then
      (st, replyFx placeUnderstandFailReply)
    else
      match dictGet sender st.places with
      | some prev =>
          let places' := dictPop sender st.places
          if isNullish data.place_query then
            (⟨st.drafts, st.delayed, dictSet sender prev places'⟩, replyFx askAreaReply)
          else
            (⟨st.drafts, st.delayed, places'⟩,
             ⟨[], [], [], [(prev, (data.place_query).getD "")], [o.placeReply]⟩)
      | none =>
          if isNullish data.place_location then
            (⟨st.drafts, st.delayed, dictSet sender ((data.place_query).getD "") st.places⟩,
             replyFx askAreaReply)
          else
            (st, ⟨[], [], [], [((data.place_query).getD "", (data.place_location).getD "")],
                  [o.placeReply]⟩)
  else
    if !truthyOpt data.place_query then
      (st, replyFx placeDetailsUnderstandFailReply)
    else
      (st, ⟨[], [], [], [((data.place_query).getD "", "")], [o.placeReply]⟩)

/-- `handle_web_search_intent_optimized`. -/
def handle_web_search_intent_optimized (o : Oracle) (data : IntentData)
    (st : ConvState) : ConvState × Effects :=
  if !truthyOpt data.search_query then
    (st, replyFx webSearchUnderstandFailReply)
  else
    match o.searchReply with
    | some r => (st, ⟨[], [], [(data.search_query).getD ""], [], [r]⟩)
    | none => (st, ⟨[], [], [(data.search_query).getD ""], [], [webSearchErrReply]⟩)

/-- Intent tags dispatched before the place branch whose handlers never
touch the conversation-state dictionaries (contact and calendar
connectors; modelled as an opaque reply). -/
def opaqueIntentsPre : List String :=
  [ "lookup_contact", "add_contact", "update_contact", "delete_contact"
  , "calendar_auth", "calendar_create", "calendar_list", "calendar_update"
  , "calendar_delete", "calendar_bulk_create", "calendar_bulk_delete" ]

/-- State-free intent tags dispatched after the place branch. -/
def opaqueIntentsPost : List String := ["memory_query", "list_contacts"]

/-- The `elif` chain dispatching on `data.get("intent")`, ending in the
capability-listing default reply. -/
def dispatchIntent (o : Oracle) (data : IntentData) (sender body : String)
    (st : ConvState) : ConvState × Effects :=
  if data.intent = "send_email" then
    handle_email_intent_optimized o data sender st
  else if opaqueIntentsPre.contains data.intent then
    (st, replyFx o.handlerReply)
  else if data.intent = "find_place" || data.intent = "place_details" then
    handle_place_intent_optimized o data sender st
  else if data.intent = "web_search" then
    handle_web_search_intent_optimized o data st
  else if opaqueIntentsPost.contains data.intent then
    (st, replyFx o.handlerReply)
  else
    (st, replyFx (capabilityReply body))

/-- The heuristic fallback `try` block: invoke the Tavily search and
reply with its results; when the block raises, fall through to `next`
(the rest of the dispatcher). -/
def fallbackSearch (o : Oracle) (body : String) (st : ConvState)
    (next : ConvState × Effects) : ConvState × Effects :=
  match o.searchReply with
  | some r => (st, ⟨[], [], [body], [], [r]⟩)
  | none => (next.1, ⟨(next.2).emailsSent, (next.2).transcribed, body :: (next.2).webSearches,
                     (next.2).placeSearches, (next.2).replies⟩)

/-- The extraction phase of `process_message_background_optimized`: wait
on the extraction task (own 25s timeout), then run the heuristic
search-intent fallback when no actionable intent came back, then the
intent `elif` chain. -/
def extractionPhase (o : Oracle) (sender body : String) (st : ConvState) :
    ConvState × Effects :=
  match o.extraction with
  | .timedOut => (st, replyFx processingTimeoutReply)
  | .failed =>
      if is_search_intent body then
        fallbackSearch o body st (st, replyFx (capabilityReply body))
      else
        (st, replyFx (capabilityReply body))
  | .ok data =>
      if data.intent = "other" && is_search_intent body then
        fallbackSearch o body st (dispatchIntent o data sender body st)
      else
        dispatchIntent o data sender body st

/-- The pending-draft block of `process_message_background_optimized`,
followed by the extraction phase when no draft is pending. `body` is the
effective text (transcribed when the message was audio). -/
def draftPhase (o : Oracle) (sender body : String) (st : ConvState) :
    ConvState × Effects :=
  match dictGet sender st.drafts with
  | some draft =>
      let approvalText := pyLower (pyStrip body.data)
      if containsApproval approvalText then
        let reply :=
          match o.sendResult with
          | .ok _ => emailSentReply draft
          | .err e => emailFailReply e
          | .timedOut => sendTimeoutReply
        (⟨dictPop sender st.drafts, st.delayed, st.places⟩,
         ⟨[(draft.to_email, draft.subject, draft.email_body)], [], [], [], [reply]⟩)
      else if containsCancellation approvalText then
        (⟨dictPop sender st.drafts, st.delayed, st.places⟩, replyFx cancelReply)
      else
        match o.revision with
        | .ok r =>
            (⟨dictSet sender r st.drafts, st.delayed, st.places⟩,
             replyFx (revisedDraftReply r))
        | .failed => (st, replyFx reviseFailReply)
        | .timedOut => (st, replyFx reviseTimeoutReply)
  | none => extractionPhase o sender body st

/-- One inbound webhook form post. -/
structure InMsg where
  from_number : String
  body : String
  num_media : String
  media_content_type : String
  media_url : String

/-- `num_media != "0" and media_content_type.startswith("audio")`. -/
def isAudioMsg (m : InMsg) : Bool :=
  m.num_media ≠ "0" && pyStartsWith "audio".data m.media_content_type.data

/-- `process_message_background_optimized`: the background dispatcher for
one message. Checks the date/time fast path on the raw text, then audio
transcription, then the pending-draft protocol, then extraction and
intent dispatch. -/
def process_message_background_optimized (o : Oracle) (m : InMsg) (st : ConvState) :
    ConvState × Effects :=
  let bodyLower := pyLower (pyStrip m.body.data)
  if isDateTimeQuery bodyLower then
    (st, replyFx (if wantsTime bodyLower then o.timeReply else o.dateReply))
  else if isAudioMsg m then
    match o.transcription with
    | some t =>
        let res := draftPhase o m.from_number t st
        (res.1, ⟨(res.2).emailsSent, m.media_url :: (res.2).transcribed,
                 (res.2).webSearches, (res.2).placeSearches, (res.2).replies⟩)
    | none => (st, ⟨[], [m.media_url], [], [], [transcribeFailReply]⟩)
  else
    draftPhase o m.from_number m.body st

/-- `whatsapp_webhook`: a delayed response stored for the sender is
popped and returned as the entire synchronous webhook response, without
scheduling any background processing; otherwise the webhook acknowledges
with the empty string and the background task runs. The third component
is `none` exactly when no background processing happened. -/
def whatsapp_webhook (o : Oracle) (m : InMsg) (st : ConvState) :
    ConvState × String × Option Effects :=
  match dictGet m.from_number st.delayed with
  | some r => (⟨st.drafts, dictPop m.from_number st.delayed, st.places⟩, r, none)
  | none =>
      let res := process_message_background_optimized o m st
      (res.1, "", some res.2)

/-- `send_whatsapp_message`: on a Twilio daily-limit failure the intended
reply is stored as a delayed response for the recipient; the returned
flag is the success result of the function. -/
def send_whatsapp_message (rateLimited : Bool) (toNumber msg : String)
    (delayed : Dict String) : Dict String × Bool :=
  if rateLimited then (dictSet toNumber msg delayed, false) else (delayed, true)

/-! ### Concrete fixtures for witnesses and counterexamples -/

/-- A stored draft used by the concrete scenarios. -/
def draftSarah : Draft := ⟨"sarah@x.com", "Hi", "Body"⟩

/-- State with one pending draft for sender `+1555`. -/
def stDraft : ConvState := ⟨[("+1555", draftSarah)], [], []⟩

/-- State with one pending place query for sender `+1555`. -/
def stPlace : ConvState := ⟨[], [], [("+1555", "coffee shops")]⟩

/-- State with one delayed response for sender `+1555`. -/
def stDelayed : ConvState := ⟨[], [("+1555", "DELAYED")], []⟩

/-- The empty conversation state. -/
def stEmpty : ConvState := ⟨[], [], []⟩

def intentOther : IntentData := ⟨"other", none, none, none, none, none, none, none⟩

def intentFindPlaceLoc : IntentData :=
  ⟨"find_place", none, none, none, none, some "Downtown Dubai", none, none⟩

/-- Oracle where the email send fails with an error. -/
def oSendErr : Oracle :=
  ⟨none, ExtractOutcome.failed, SendOutcome.err "boom", ReviseOutcome.failed,
   none, none, "PLACES", "HANDLED", "TIMEREPLY", "DATEREPLY"⟩

/-- Oracle where the email send succeeds. -/
def oSendOk : Oracle :=
  ⟨none, ExtractOutcome.failed, SendOutcome.ok "id", ReviseOutcome.failed,
   none, none, "PLACES", "HANDLED", "TIMEREPLY", "DATEREPLY"⟩

/-- Oracle where the revision call returns a revised draft. -/
def oRevised : Oracle :=
  ⟨none, ExtractOutcome.failed, SendOutcome.ok "id",
   ReviseOutcome.ok ⟨"sarah@x.com", "Hi v2", "Body v2"⟩,
   none, none, "PLACES", "HANDLED", "TIMEREPLY", "DATEREPLY"⟩

/-- Oracle whose extraction returns the `other` intent. -/
def oOther : Oracle :=
  ⟨some "voice text", ExtractOutcome.ok intentOther, SendOutcome.ok "id",
   ReviseOutcome.failed, none, some "SEARCHED", "PLACES", "HANDLED", "TIMEREPLY", "DATEREPLY"⟩

/-- Oracle whose extraction returns a `find_place` intent with a query. -/
def oFindPlace : Oracle :=
  ⟨none, ExtractOutcome.ok intentFindPlaceLoc, SendOutcome.ok "id",
   ReviseOutcome.failed, none, none, "PLACES", "HANDLED", "TIMEREPLY", "DATEREPLY"⟩

/-- Oracle whose extraction task hits the 25s dispatcher timeout. -/
def oExtractTimeout : Oracle :=
  ⟨none, ExtractOutcome.timedOut, SendOutcome.ok "id", ReviseOutcome.failed,
   none, some "SEARCHED", "PLACES", "HANDLED", "TIMEREPLY", "DATEREPLY"⟩

/-- Oracle whose extraction task returns `None` (internal failure). -/
def oExtractFailed : Oracle :=
  ⟨none, ExtractOutcome.failed, SendOutcome.ok "id", ReviseOutcome.failed,
   none, some "SEARCHED", "PLACES", "HANDLED", "TIMEREPLY", "DATEREPLY"⟩

def msgYes : InMsg := ⟨"+1555", "yes", "0", "", ""⟩

def msgDontSendIt : InMsg := ⟨"+1555", "don\x27t send it", "0", "", ""⟩

def msgCancel : InMsg := ⟨"+1555", "cancel", "0", "", ""⟩

def msgRevise : InMsg := ⟨"+1555", "make it shorter", "0", "", ""⟩

def msgHello : InMsg := ⟨"+1555", "hello there", "0", "", ""⟩

def msgLocation : InMsg := ⟨"+1555", "Downtown Dubai", "0", "", ""⟩

def msgAudioTime : InMsg := ⟨"+1555", "what time is it", "1", "audio/ogg", "http://a.ogg"⟩

def msgLatestAI : InMsg := ⟨"+1555", "What is the latest in AI?", "0", "", ""⟩

/-- Both per-sender maps have pairwise-distinct keys. -/
def goodState (st : ConvState) : Prop := keysNodup st.drafts ∧ keysNodup st.places

instance decKeysNodup {α : Type} (d : Dict α) : Decidable (keysNodup d) := by
  unfold keysNodup
  infer_instance

instance decGoodState (st : ConvState) : Decidable (goodState st) := by
  unfold goodState
  infer_instance

/-! ### Dictionary lemmas -/

theorem dictGet_eq_none_of_not_mem {α : Type} {k : String} {d : Dict α}
    (h : k ∉ d.map Prod.fst) : dictGet k d = none := by
  induction d with
  | nil => rfl
  | cons p t ih =>
      simp only [List.map_cons, List.mem_cons, not_or] at h
      rw [dictGet]
      rw [if_neg (fun hh => h.1 hh.symm)]
      exact ih h.2

theorem dictGet_dictSet_self {α : Type} (k : String) (v : α) (d : Dict α) :
    dictGet k (dictSet k v d) = some v := by
  induction d with
  | nil => simp [dictSet, dictGet]
  | cons p t ih =>
      by_cases h : p.1 = k
      · simp [dictSet, dictGet, h]
      · simp [dictSet, dictGet, h, ih]

theorem mem_keys_dictPop {α : Type} {k x : String} {d : Dict α}
    (h : x ∈ (dictPop k d).map Prod.fst) : x ∈ d.map Prod.fst := by
  induction d with
  | nil => exact h
  | cons p t ih =>
      by_cases hk : p.1 = k
      · rw [dictPop, if_pos hk] at h
        simp [h]
      · rw [dictPop, if_neg hk] at h
        rw [List.map_cons, List.mem_cons] at h
        rcases h with h | h
        · simp [h]
        · simp [ih h]

theorem keysNodup_dictPop {α : Type} (k : String) {d : Dict α} (h : keysNodup d) :
    keysNodup (dictPop k d) := by
  induction d with
  | nil => simpa [dictPop] using h
  | cons p t ih =>
      rw [keysNodup, List.map_cons, List.nodup_cons] at h
      by_cases hk : p.1 = k
      · rw [keysNodup, dictPop, if_pos hk]
        exact h.2
      · rw [keysNodup, dictPop, if_neg hk, List.map_cons, List.nodup_cons]
        exact ⟨fun hx => h.1 (mem_keys_dictPop hx), ih h.2⟩

theorem dictGet_dictPop_self {α : Type} (k : String) {d : Dict α} (h : keysNodup d) :
    dictGet k (dictPop k d) = none := by
  induction d with
  | nil => rfl
  | cons p t ih =>
      rw [keysNodup, List.map_cons, List.nodup_cons] at h
      by_cases hk : p.1 = k
      · rw [dictPop, if_pos hk]
        refine dictGet_eq_none_of_not_mem ?_
        rw [← hk]
        exact h.1
      · rw [dictPop, if_neg hk, dictGet, if_neg hk]
        exact ih h.2

theorem mem_keys_dictSet {α : Type} {k x : String} {v : α} {d : Dict α}
    (h : x ∈ (dictSet k v d).map Prod.fst) : x = k ∨ x ∈ d.map Prod.fst := by
  induction d with
  | nil => simpa [dictSet] using h
  | cons p t ih =>
      by_cases hk : p.1 = k
      · rw [dictSet, if_pos hk, List.map_cons, List.mem_cons] at h
        rcases h with h | h
        · exact Or.inr (by simp [h])
        · exact Or.inr (by simp [h])
      · rw [dictSet, if_neg hk, List.map_cons, List.mem_cons] at h
        rcases h with h | h
        · exact Or.inr (by simp [h])
        · rcases ih h with h | h
          · exact Or.inl h
          · exact Or.inr (by simp [h])

theorem keysNodup_dictSet {α : Type} (k : String) (v : α) {d : Dict α} (h : keysNodup d) :
    keysNodup (dictSet k v d) := by
  induction d with
  | nil => simp [keysNodup, dictSet]
  | cons p t ih =>
      rw [keysNodup, List.map_cons, List.nodup_cons] at h
      by_cases hk : p.1 = k
      · rw [keysNodup, dictSet, if_pos hk, List.map_cons, List.nodup_cons]
        exact h
      · rw [keysNodup, dictSet, if_neg hk, List.map_cons, List.nodup_cons]
        refine ⟨fun hx => ?_, ih h.2⟩
        rcases mem_keys_dictSet hx with hx | hx
        · exact hk (hx ▸ rfl)
        · exact h.1 hx

theorem keyCount_eq_zero_of_not_mem {α : Type} {k : String} {d : Dict α}
    (h : k ∉ d.map Prod.fst) : keyCount k d = 0 := by
  induction d with
  | nil => rfl
  | cons p t ih =>
      simp only [List.map_cons, List.mem_cons, not_or] at h
      rw [keyCount, List.filter_cons]
      rw [if_neg (by simpa using fun hh => h.1 hh.symm)]
      exact ih h.2

theorem keyCount_le_one {α : Type} (k : String) {d : Dict α} (h : keysNodup d) :
    keyCount k d ≤ 1 := by
  induction d with
  | nil => simp [keyCount]
  | cons p t ih =>
      rw [keysNodup, List.map_cons, List.nodup_cons] at h
      by_cases hk : p.1 = k
      · rw [keyCount, List.filter_cons, if_pos (by simpa using hk)]
        have : keyCount k t = 0 := keyCount_eq_zero_of_not_mem (hk ▸ h.1)
        rw [keyCount] at this
        simp [this]
      · rw [keyCount, List.filter_cons, if_neg (by simpa using hk)]
        exact ih h.2

/-! ### State-preservation lemmas for the dispatcher paths -/

theorem goodState_emailDraftFinish (data : IntentData) (sender : String) (st : ConvState)
    (e : Option String) (h : goodState st) :
    goodState (emailDraftFinish data sender st e).1 := by
  rw [emailDraftFinish]
  split
  · exact ⟨keysNodup_dictSet _ _ h.1, h.2⟩
  · exact h

theorem goodState_email_handler (o : Oracle) (data : IntentData) (sender : String)
    (st : ConvState) (h : goodState st) :
    goodState (handle_email_intent_optimized o data sender st).1 := by
  rw [handle_email_intent_optimized]
  split
  · split
    · exact goodState_emailDraftFinish data sender st o.contactLookup h
    · exact h
  · exact goodState_emailDraftFinish data sender st data.recipient_email h

theorem goodState_place_handler (o : Oracle) (data : IntentData) (sender : String)
    (st : ConvState) (h : goodState st) :
    goodState (handle_place_intent_optimized o data sender st).1 := by
  rw [handle_place_intent_optimized]
  split
  · split
    · exact h
    · split
      · split
        · exact ⟨h.1, keysNodup_dictSet _ _ (keysNodup_dictPop _ h.2)⟩
        · exact ⟨h.1, keysNodup_dictPop _ h.2⟩
      · split
        · exact ⟨h.1, keysNodup_dictSet _ _ h.2⟩
        · exact h
  · split
    · exact h
    · exact h

theorem goodState_web_search_handler (o : Oracle) (data : IntentData)
    (st : ConvState) (h : goodState st) :
    goodState (handle_web_search_intent_optimized o data st).1 := by
  rw [handle_web_search_intent_optimized]
  split
  · exact h
  · split <;> exact h

theorem goodState_dispatchIntent (o : Oracle) (data : IntentData) (sender body : String)
    (st : ConvState) (h : goodState st) :
    goodState (dispatchIntent o data sender body st).1 := by
  rw [dispatchIntent]
  split
  · exact goodState_email_handler o data sender st h
  · split
    · exact h
    · split
      · exact goodState_place_handler o data sender st h
      · split
        · exact goodState_web_search_handler o data st h
        · split
          · exact h
          · exact h

theorem goodState_fallbackSearch (o : Oracle) (body : String) (st : ConvState)
    (next : ConvState × Effects) (h : goodState st) (hn : goodState next.1) :
    goodState (fallbackSearch o body st next).1 := by
  rw [fallbackSearch]
  split
  · exact h
  · exact hn

theorem goodState_extractionPhase (o : Oracle) (sender body : String) (st : ConvState)
    (h : goodState st) :
    goodState (extractionPhase o sender body st).1 := by
  rw [extractionPhase]
  split
  · exact h
  · split
    · exact goodState_fallbackSearch o body st _ h h
    · exact h
  · split
    · exact goodState_fallbackSearch o body st _ h
        (goodState_dispatchIntent o _ sender body st h)
    · exact goodState_dispatchIntent o _ sender body st h

theorem draftPhase_none (o : Oracle) (sender body : String) (st : ConvState)
    (hd : dictGet sender st.drafts = none) :
    draftPhase o sender body st = extractionPhase o sender body st := by
  rw [draftPhase, hd]

theorem draftPhase_approval (o : Oracle) (sender body : String) (st : ConvState) (d : Draft)
    (hd : dictGet sender st.drafts = some d)
    (ha : containsApproval (pyLower (pyStrip body.data)) = true) :
    draftPhase o sender body st =
      (⟨dictPop sender st.drafts, st.delayed, st.places⟩,
       ⟨[(d.to_email, d.subject, d.email_body)], [], [], [],
        [match o.sendResult with
         | SendOutcome.ok _ => emailSentReply d
         | SendOutcome.err e => emailFailReply e
         | SendOutcome.timedOut => sendTimeoutReply]⟩) := by
  rw [draftPhase, hd]
  simp only [ha, if_true]

theorem draftPhase_cancel (o : Oracle) (sender body : String) (st : ConvState) (d : Draft)
    (hd : dictGet sender st.drafts = some d)
    (ha : containsApproval (pyLower (pyStrip body.data)) = false)
    (hc : containsCancellation (pyLower (pyStrip body.data)) = true) :
    draftPhase o sender body st =
      (⟨dictPop sender st.drafts, st.delayed, st.places⟩, replyFx cancelReply) := by
  rw [draftPhase, hd]
  simp only [ha, hc, if_true, if_false, Bool.false_eq_true]

theorem draftPhase_revise (o : Oracle) (sender body : String) (st : ConvState) (d : Draft)
    (hd : dictGet sender st.drafts = some d)
    (ha : containsApproval (pyLower (pyStrip body.data)) = false)
    (hc : containsCancellation (pyLower (pyStrip body.data)) = false) :
    draftPhase o sender body st =
      (match o.revision with
       | ReviseOutcome.ok r =>
           (⟨dictSet sender r st.drafts, st.delayed, st.places⟩,
            replyFx (revisedDraftReply r))
       | ReviseOutcome.failed => (st, replyFx reviseFailReply)
       | ReviseOutcome.timedOut => (st, replyFx reviseTimeoutReply)) := by
  rw [draftPhase, hd]
  simp only [ha, hc, if_false, Bool.false_eq_true]

theorem goodState_draftPhase (o : Oracle) (sender body : String) (st : ConvState)
    (h : goodState st) :
    goodState (draftPhase o sender body st).1 := by
  rcases hd : dictGet sender st.drafts with _ | d
  · rw [draftPhase_none o sender body st hd]
    exact goodState_extractionPhase o sender body st h
  · by_cases ha : containsApproval (pyLower (pyStrip body.data)) = true
    · rw [draftPhase_approval o sender body st d hd ha]
      exact ⟨keysNodup_dictPop _ h.1, h.2⟩
    · rw [Bool.not_eq_true] at ha
      by_cases hc : containsCancellation (pyLower (pyStrip body.data)) = true
      · rw [draftPhase_cancel o sender body st d hd ha hc]
        exact ⟨keysNodup_dictPop _ h.1, h.2⟩
      · rw [Bool.not_eq_true] at hc
        rw [draftPhase_revise o sender body st d hd ha hc]
        cases hr : o.revision with
        | ok r =>
            simp only [hr]
            exact ⟨keysNodup_dictSet _ _ h.1, h.2⟩
        | failed =>
            simp only [hr]
            exact h
        | timedOut =>
            simp only [hr]
            exact h

theorem goodState_process (o : Oracle) (m : InMsg) (st : ConvState)
    (h : goodState st) :
    goodState (process_message_background_optimized o m st).1 := by
  rw [process_message_background_optimized]
  split
  · exact h
  · split
    · split
      · exact goodState_draftPhase o m.from_number _ st h
      · exact h
    · exact goodState_draftPhase o m.from_number m.body st h

/-! ### Path lemmas for the dispatcher -/

theorem process_eq_draftPhase (o : Oracle) (m : InMsg) (st : ConvState)
    (hdt : isDateTimeQuery (pyLower (pyStrip m.body.data)) = false)
    (hmedia : isAudioMsg m = false) :
    process_message_background_optimized o m st = draftPhase o m.from_number m.body st := by
  rw [process_message_background_optimized]
  simp only [hdt, hmedia, if_false, Bool.false_eq_true]

theorem extractionPhase_timedOut (o : Oracle) (sender body : String) (st : ConvState)
    (he : o.extraction = ExtractOutcome.timedOut) :
    extractionPhase o sender body st = (st, replyFx processingTimeoutReply) := by
  rw [extractionPhase, he]

theorem extractionPhase_failed_search (o : Oracle) (sender body : String) (st : ConvState)
    (he : o.extraction = ExtractOutcome.failed) (hs : is_search_intent body = true) :
    extractionPhase o sender body st =
      fallbackSearch o body st (st, replyFx (capabilityReply body)) := by
  rw [extractionPhase, he]
  simp only [hs, if_true]

theorem extractionPhase_failed_nosearch (o : Oracle) (sender body : String) (st : ConvState)
    (he : o.extraction = ExtractOutcome.failed) (hs : is_search_intent body = false) :
    extractionPhase o sender body st = (st, replyFx (capabilityReply body)) := by
  rw [extractionPhase, he]
  simp only [hs, Bool.false_eq_true, if_false]

theorem extractionPhase_ok_not_other (o : Oracle) (sender body : String) (st : ConvState)
    (data : IntentData) (he : o.extraction = ExtractOutcome.ok data)
    (hint : data.intent ≠ "other") :
    extractionPhase o sender body st = dispatchIntent o data sender body st := by
  rw [extractionPhase, he]
  simp [hint]

theorem dispatchIntent_find_place (o : Oracle) (data : IntentData) (sender body : String)
    (st : ConvState) (hfp : data.intent = "find_place") :
    dispatchIntent o data sender body st = handle_place_intent_optimized o data sender st := by
  rw [dispatchIntent]
  simp [hfp, opaqueIntentsPre]

theorem place_handler_pending (o : Oracle) (data : IntentData) (sender : String)
    (st : ConvState) (prev : String)
    (hfp : data.intent = "find_place")
    (hq : truthyOpt data.place_query = true)
    (hpq : dictGet sender st.places = some prev)
    (hnn : isNullish data.place_query = false) :
    handle_place_intent_optimized o data sender st =
      (⟨st.drafts, st.delayed, dictPop sender st.places⟩,
       ⟨[], [], [], [(prev, (data.place_query).getD "")], [o.placeReply]⟩) := by
  rw [handle_place_intent_optimized]
  simp only [hfp, if_true, hq, Bool.not_true, Bool.false_eq_true, if_false, hpq, hnn]

theorem places_unchanged_emailDraftFinish (data : IntentData) (sender : String)
    (st : ConvState) (e : Option String) :
    (emailDraftFinish data sender st e).1.places = st.places := by
  rw [emailDraftFinish]
  split <;> rfl

theorem places_unchanged_email_handler (o : Oracle) (data : IntentData) (sender : String)
    (st : ConvState) :
    (handle_email_intent_optimized o data sender st).1.places = st.places := by
  rw [handle_email_intent_optimized]
  split
  · split
    · exact places_unchanged_emailDraftFinish data sender st o.contactLookup
    · rfl
  · exact places_unchanged_emailDraftFinish data sender st data.recipient_email

theorem places_unchanged_place_details (o : Oracle) (data : IntentData) (sender : String)
    (st : ConvState) (hnf : data.intent ≠ "find_place") :
    (handle_place_intent_optimized o data sender st).1.places = st.places := by
  rw [handle_place_intent_optimized]
  rw [if_neg hnf]
  split <;> rfl

theorem places_unchanged_web_search (o : Oracle) (data : IntentData) (st : ConvState) :
    (handle_web_search_intent_optimized o data st).1.places = st.places := by
  rw [handle_web_search_intent_optimized]
  split
  · rfl
  · split <;> rfl

theorem places_unchanged_dispatch (o : Oracle) (data : IntentData) (sender body : String)
    (st : ConvState) (hnf : data.intent ≠ "find_place") :
    (dispatchIntent o data sender body st).1.places = st.places := by
  rw [dispatchIntent]
  split
  · exact places_unchanged_email_handler o data sender st
  · split
    · rfl
    · split
      · exact places_unchanged_place_details o data sender st hnf
      · split
        · exact places_unchanged_web_search o data st
        · split <;> rfl

theorem places_unchanged_extraction_ok (o : Oracle) (sender body : String) (st : ConvState)
    (data : IntentData) (he : o.extraction = ExtractOutcome.ok data)
    (hnf : data.intent ≠ "find_place") :
    (extractionPhase o sender body st).1.places = st.places := by
  rw [extractionPhase, he]
  dsimp only
  split
  · rw [fallbackSearch]
    split
    · rfl
    · exact places_unchanged_dispatch o data sender body st hnf
  · exact places_unchanged_dispatch o data sender body st hnf

theorem whatsapp_webhook_delayed (o : Oracle) (m : InMsg) (st : ConvState) (r : String)
    (hdel : dictGet m.from_number st.delayed = some r) :
    whatsapp_webhook o m st =
      (⟨st.drafts, dictPop m.from_number st.delayed, st.places⟩, r, none) := by
  rw [whatsapp_webhook, hdel]

theorem whatsapp_webhook_ack (o : Oracle) (m : InMsg) (st : ConvState)
    (hdel : dictGet m.from_number st.delayed = none) :
    whatsapp_webhook o m st =
      ((process_message_background_optimized o m st).1, "",
       some (process_message_background_optimized o m st).2) := by
  rw [whatsapp_webhook, hdel]

/-! ### Claim theorems -/

/-- C1: for a sender with a pending email draft whose next (text) message
contains an approval phrase and is not intercepted by the date/time fast
path, the dispatcher invokes the send connector exactly once with exactly
the three stored fields, and afterwards no draft exists for that sender,
whatever the send outcome (`o.sendResult` is universally quantified). -/
theorem c1_email_approval_sends_once_and_clears (o : Oracle) (m : InMsg) (st : ConvState)
    (d : Draft)
    (hnd : keysNodup st.drafts)
    (hdt : isDateTimeQuery (pyLower (pyStrip m.body.data)) = false)
    (hmedia : isAudioMsg m = false)
    (hd : dictGet m.from_number st.drafts = some d)
    (ha : containsApproval (pyLower (pyStrip m.body.data)) = true) :
    (process_message_background_optimized o m st).2.emailsSent
        = [(d.to_email, d.subject, d.email_body)] ∧
    dictGet m.from_number (process_message_background_optimized o m st).1.drafts = none := by
  rw [process_eq_draftPhase o m st hdt hmedia,
      draftPhase_approval o m.from_number m.body st d hd ha]
  exact ⟨rfl, dictGet_dictPop_self _ hnd⟩

/-- Witness for C1: sender `+1555`, draft for Sarah, message `yes`, send
connector failing with an error — the connector is still invoked once
with the stored fields and the draft is cleared. -/
theorem c1_witness :
    keysNodup stDraft.drafts ∧
    isDateTimeQuery (pyLower (pyStrip msgYes.body.data)) = false ∧
    isAudioMsg msgYes = false ∧
    dictGet msgYes.from_number stDraft.drafts = some draftSarah ∧
    containsApproval (pyLower (pyStrip msgYes.body.data)) = true ∧
    (process_message_background_optimized oSendErr msgYes stDraft).2.emailsSent
        = [(draftSarah.to_email, draftSarah.subject, draftSarah.email_body)] ∧
    dictGet msgYes.from_number
        (process_message_background_optimized oSendErr msgYes stDraft).1.drafts = none := by
  refine ⟨by decide, by decide, by decide, by decide, by decide, ?_, ?_⟩
  · exact (c1_email_approval_sends_once_and_clears oSendErr msgYes stDraft draftSarah
      (by decide) (by decide) (by decide) (by decide) (by decide)).1
  · exact (c1_email_approval_sends_once_and_clears oSendErr msgYes stDraft draftSarah
      (by decide) (by decide) (by decide) (by decide) (by decide)).2

/-- Counterexample for C2: the text of `msgDontSendIt` contains a
cancellation phrase, yet the send connector IS called (the approval
check runs first and `send it` is a substring of it), so the claim
"send connector is never called for a message containing a cancellation
phrase" is false. -/
theorem c2_counterexample :
    containsCancellation (pyLower (pyStrip msgDontSendIt.body.data)) = true ∧
    (process_message_background_optimized oSendOk msgDontSendIt stDraft).2.emailsSent
      = [("sarah@x.com", "Hi", "Body")] := by
  decide

/-- C2 (amended): for a sender with a pending draft whose next (text)
message contains a cancellation phrase and NO approval phrase, the send
connector is never called and the draft is absent afterward. -/
theorem c2_cancellation_clears_without_send (o : Oracle) (m : InMsg) (st : ConvState)
    (d : Draft)
    (hnd : keysNodup st.drafts)
    (hdt : isDateTimeQuery (pyLower (pyStrip m.body.data)) = false)
    (hmedia : isAudioMsg m = false)
    (hd : dictGet m.from_number st.drafts = some d)
    (ha : containsApproval (pyLower (pyStrip m.body.data)) = false)
    (hc : containsCancellation (pyLower (pyStrip m.body.data)) = true) :
    (process_message_background_optimized o m st).2.emailsSent = [] ∧
    (process_message_background_optimized o m st).2.replies = [cancelReply] ∧
    dictGet m.from_number (process_message_background_optimized o m st).1.drafts = none := by
  rw [process_eq_draftPhase o m st hdt hmedia,
      draftPhase_cancel o m.from_number m.body st d hd ha hc]
  exact ⟨rfl, rfl, dictGet_dictPop_self _ hnd⟩

/-- Witness for the amended C2: message `cancel` clears the draft with no
send-connector call. -/
theorem c2_witness :
    (process_message_background_optimized oSendOk msgCancel stDraft).2.emailsSent = [] ∧
    (process_message_background_optimized oSendOk msgCancel stDraft).2.replies = [cancelReply] ∧
    dictGet msgCancel.from_number
        (process_message_background_optimized oSendOk msgCancel stDraft).1.drafts = none :=
  c2_cancellation_clears_without_send oSendOk msgCancel stDraft draftSarah
    (by decide) (by decide) (by decide) (by decide) (by decide) (by decide)

/-- C3: for a sender with a pending draft whose next (text) message is
neither an approval nor a cancellation, a successful revision call
replaces the stored draft wholesale with the revised fields (still
awaiting approval), while a failed or timed-out revision leaves the
draft store exactly as it was; no email is sent either way. -/
theorem c3_revision_atomic_or_unchanged (o : Oracle) (m : InMsg) (st : ConvState)
    (d : Draft)
    (hdt : isDateTimeQuery (pyLower (pyStrip m.body.data)) = false)
    (hmedia : isAudioMsg m = false)
    (hd : dictGet m.from_number st.drafts = some d)
    (ha : containsApproval (pyLower (pyStrip m.body.data)) = false)
    (hc : containsCancellation (pyLower (pyStrip m.body.data)) = false) :
    (∀ r, o.revision = ReviseOutcome.ok r →
        dictGet m.from_number (process_message_background_optimized o m st).1.drafts = some r) ∧
    (o.revision = ReviseOutcome.failed →
        (process_message_background_optimized o m st).1.drafts = st.drafts) ∧
    (o.revision = ReviseOutcome.timedOut →
        (process_message_background_optimized o m st).1.drafts = st.drafts) ∧
    (process_message_background_optimized o m st).2.emailsSent = [] := by
  rw [process_eq_draftPhase o m st hdt hmedia,
      draftPhase_revise o m.from_number m.body st d hd ha hc]
  refine ⟨?_, ?_, ?_, ?_⟩
  · intro r hr
    rw [hr]
    exact dictGet_dictSet_self _ _ _
  · intro hr
    rw [hr]
  · intro hr
    rw [hr]
  · cases hr : o.revision <;> rfl

/-- Witness for C3: the revision instruction `make it shorter` with a
successful revision call replaces the stored draft with the revised
fields. -/
theorem c3_witness :
    dictGet msgRevise.from_number
        (process_message_background_optimized oRevised msgRevise stDraft).1.drafts
      = some ⟨"sarah@x.com", "Hi v2", "Body v2"⟩ :=
  (c3_revision_atomic_or_unchanged oRevised msgRevise stDraft draftSarah
      (by decide) (by decide) (by decide) (by decide) (by decide)).1
    ⟨"sarah@x.com", "Hi v2", "Body v2"⟩ (by decide)

/-- C10: with a pending draft, the approval-phrase check is evaluated
before the cancellation-phrase check, so a message containing both kinds
of phrase takes the send path; the text of `msgDontSendIt` is such a
message: it contains the approval substring `send it` inside its
cancellation phrase. -/
theorem c10_approval_checked_before_cancellation (o : Oracle) (m : InMsg) (st : ConvState)
    (d : Draft)
    (hnd : keysNodup st.drafts)
    (hdt : isDateTimeQuery (pyLower (pyStrip m.body.data)) = false)
    (hmedia : isAudioMsg m = false)
    (hd : dictGet m.from_number st.drafts = some d)
    (ha : containsApproval (pyLower (pyStrip m.body.data)) = true)
    (hc : containsCancellation (pyLower (pyStrip m.body.data)) = true) :
    (process_message_background_optimized o m st).2.emailsSent
        = [(d.to_email, d.subject, d.email_body)] ∧
    dictGet m.from_number (process_message_background_optimized o m st).1.drafts = none ∧
    containsApproval (pyLower (pyStrip "don\x27t send it".data)) = true ∧
    containsCancellation (pyLower (pyStrip "don\x27t send it".data)) = true := by
  rw [process_eq_draftPhase o m st hdt hmedia,
      draftPhase_approval o m.from_number m.body st d hd ha]
  exact ⟨rfl, dictGet_dictPop_self _ hnd, by decide, by decide⟩

/-- Witness for C10: the text of `msgDontSendIt` against a pending
draft sends the stored email once and clears the draft. -/
theorem c10_witness :
    (process_message_background_optimized oSendErr msgDontSendIt stDraft).2.emailsSent
        = [(draftSarah.to_email, draftSarah.subject, draftSarah.email_body)] ∧
    dictGet msgDontSendIt.from_number
        (process_message_background_optimized oSendErr msgDontSendIt stDraft).1.drafts = none ∧
    containsApproval (pyLower (pyStrip "don\x27t send it".data)) = true ∧
    containsCancellation (pyLower (pyStrip "don\x27t send it".data)) = true :=
  c10_approval_checked_before_cancellation oSendErr msgDontSendIt stDraft draftSarah
    (by decide) (by decide) (by decide) (by decide) (by decide) (by decide)

/-- Counterexample for C4: sender `+1555` has a pending place query
`coffee shops`; the next message `hello there` (extracted as intent
`other`) does NOT consume the query and performs no place search — the
pending query is only consumed inside the `find_place` intent handler,
not unconditionally on the very next message. -/
theorem c4_counterexample :
    dictGet "+1555" stPlace.places = some "coffee shops" ∧
    (process_message_background_optimized oOther msgHello stPlace).1.places
      = [("+1555", "coffee shops")] ∧
    (process_message_background_optimized oOther msgHello stPlace).2.placeSearches = [] := by
  decide

/-- C4 (amended): a pending place query is consumed only when the next
message is extracted as a `find_place` intent with a truthy, non-null
`place_query`; then exactly one place search runs, combining the stored
term with that extracted `place_query` (not the raw message text) as the
location. When the extracted intent is anything else, the pending query
is left in place untouched. -/
theorem c4_place_query_consumed_only_by_find_place (o : Oracle) (m : InMsg) (st : ConvState)
    (prev : String) (data : IntentData)
    (hnp : keysNodup st.places)
    (hdt : isDateTimeQuery (pyLower (pyStrip m.body.data)) = false)
    (hmedia : isAudioMsg m = false)
    (hnodraft : dictGet m.from_number st.drafts = none)
    (hpq : dictGet m.from_number st.places = some prev)
    (he : o.extraction = ExtractOutcome.ok data) :
    (data.intent = "find_place" → truthyOpt data.place_query = true →
      isNullish data.place_query = false →
      (process_message_background_optimized o m st).2.placeSearches
          = [(prev, (data.place_query).getD "")] ∧
      dictGet m.from_number (process_message_background_optimized o m st).1.places = none) ∧
    (data.intent ≠ "find_place" →
      (process_message_background_optimized o m st).1.places = st.places) := by
  have hbase : process_message_background_optimized o m st
      = extractionPhase o m.from_number m.body st := by
    rw [process_eq_draftPhase o m st hdt hmedia,
        draftPhase_none o m.from_number m.body st hnodraft]
  constructor
  · intro hfp hq hnn
    rw [hbase,
        extractionPhase_ok_not_other o m.from_number m.body st data he (by rw [hfp]; decide),
        dispatchIntent_find_place o data m.from_number m.body st hfp,
        place_handler_pending o data m.from_number st prev hfp hq hpq hnn]
    exact ⟨rfl, dictGet_dictPop_self _ hnp⟩
  · intro hnf
    rw [hbase]
    exact places_unchanged_extraction_ok o m.from_number m.body st data he hnf

/-- Witness for the amended C4: with pending query `coffee shops`, a
next message extracted as `find_place` with `place_query = Downtown
Dubai` triggers exactly one search for (`coffee shops`, `Downtown
Dubai`) and consumes the pending query. -/
theorem c4_witness :
    (process_message_background_optimized oFindPlace msgLocation stPlace).2.placeSearches
      = [("coffee shops", "Downtown Dubai")] ∧
    dictGet msgLocation.from_number
        (process_message_background_optimized oFindPlace msgLocation stPlace).1.places = none :=
  (c4_place_query_consumed_only_by_find_place oFindPlace msgLocation stPlace "coffee shops"
      intentFindPlaceLoc (by decide) (by decide) (by decide) (by decide) (by decide)
      (by decide)).1 (by decide) (by decide) (by decide)

/-- C5: a stored delayed response for a sender is returned verbatim as
the next webhook response of that sender, with no background processing at
all (drafts and place queries untouched); it is then absent, and the
following call from the same sender takes the ordinary acknowledge-and-
process path. -/
theorem c5_delayed_response_preempts (o o2 : Oracle) (m m2 : InMsg) (st : ConvState)
    (r : String)
    (hnd : keysNodup st.delayed)
    (hdel : dictGet m.from_number st.delayed = some r)
    (hsame : m2.from_number = m.from_number) :
    (whatsapp_webhook o m st).2.1 = r ∧
    (whatsapp_webhook o m st).2.2 = none ∧
    (whatsapp_webhook o m st).1.drafts = st.drafts ∧
    (whatsapp_webhook o m st).1.places = st.places ∧
    dictGet m.from_number (whatsapp_webhook o m st).1.delayed = none ∧
    (whatsapp_webhook o2 m2 (whatsapp_webhook o m st).1).2.1 = "" ∧
    (whatsapp_webhook o2 m2 (whatsapp_webhook o m st).1).2.2 ≠ none := by
  rw [whatsapp_webhook_delayed o m st r hdel]
  have habs : dictGet m.from_number (dictPop m.from_number st.delayed) = none :=
    dictGet_dictPop_self _ hnd
  have habs2 : dictGet m2.from_number (dictPop m.from_number st.delayed) = none := by
    rw [hsame]
    exact habs
  rw [whatsapp_webhook_ack o2 m2 _ habs2]
  refine ⟨rfl, rfl, rfl, rfl, habs, rfl, ?_⟩
  simp

/-- Witness for C5: a stored `DELAYED` reply for `+1555` is returned on
the next call and gone on the one after. -/
theorem c5_witness :
    (whatsapp_webhook oSendOk msgYes stDelayed).2.1 = "DELAYED" ∧
    (whatsapp_webhook oSendOk msgYes stDelayed).2.2 = none ∧
    (whatsapp_webhook oSendOk msgYes stDelayed).1.drafts = stDelayed.drafts ∧
    (whatsapp_webhook oSendOk msgYes stDelayed).1.places = stDelayed.places ∧
    dictGet msgYes.from_number (whatsapp_webhook oSendOk msgYes stDelayed).1.delayed = none ∧
    (whatsapp_webhook oOther msgHello (whatsapp_webhook oSendOk msgYes stDelayed).1).2.1 = "" ∧
    (whatsapp_webhook oOther msgHello (whatsapp_webhook oSendOk msgYes stDelayed).1).2.2 ≠ none :=
  c5_delayed_response_preempts oSendOk oOther msgYes msgHello stDelayed "DELAYED"
    (by decide) (by decide) (by decide)

/-- Counterexample for C6: an audio message whose raw text matches a
date/time pattern is answered by the local date/time fast path WITHOUT
any transcription call — the code checks date/time patterns on the raw
text BEFORE the audio branch, refuting the claimed audio-first order. -/
theorem c6_counterexample :
    isAudioMsg msgAudioTime = true ∧
    (oOther.transcription).isSome = true ∧
    (process_message_background_optimized oOther msgAudioTime stEmpty).2.transcribed = [] ∧
    (process_message_background_optimized oOther msgAudioTime stEmpty).2.replies
      = [oOther.timeReply] := by
  decide

/-- C6 (amended): the background dispatcher evaluates its steps in
strict order — local date/time answering on the RAW text first, then
audio transcription, then the pending-draft protocol (followed by
extraction); the first matching step consumes the message. The delayed
response check happens even earlier, in the webhook
(`whatsapp_webhook_delayed`). There is no top-level pending-place step:
place queries are resolved inside the `find_place` handler. -/
theorem c6_dispatch_order (o : Oracle) (m : InMsg) (st : ConvState) :
    (isDateTimeQuery (pyLower (pyStrip m.body.data)) = true →
      process_message_background_optimized o m st
        = (st, replyFx (if wantsTime (pyLower (pyStrip m.body.data)) then o.timeReply
                        else o.dateReply))) ∧
    (isDateTimeQuery (pyLower (pyStrip m.body.data)) = false → isAudioMsg m = true →
      o.transcription = none →
      process_message_background_optimized o m st
        = (st, ⟨[], [m.media_url], [], [], [transcribeFailReply]⟩)) ∧
    (∀ t, isDateTimeQuery (pyLower (pyStrip m.body.data)) = false → isAudioMsg m = true →
      o.transcription = some t →
      process_message_background_optimized o m st
        = ((draftPhase o m.from_number t st).1,
           ⟨(draftPhase o m.from_number t st).2.emailsSent,
            m.media_url :: (draftPhase o m.from_number t st).2.transcribed,
            (draftPhase o m.from_number t st).2.webSearches,
            (draftPhase o m.from_number t st).2.placeSearches,
            (draftPhase o m.from_number t st).2.replies⟩)) ∧
    (isDateTimeQuery (pyLower (pyStrip m.body.data)) = false → isAudioMsg m = false →
      process_message_background_optimized o m st = draftPhase o m.from_number m.body st) := by
  refine ⟨?_, ?_, ?_, ?_⟩
  · intro h1
    rw [process_message_background_optimized]
    simp only [h1, if_true]
  · intro h1 h2 h3
    rw [process_message_background_optimized]
    simp only [h1, h2, h3, Bool.false_eq_true, if_false, if_true]
  · intro t h1 h2 h3
    rw [process_message_background_optimized]
    simp only [h1, h2, h3, Bool.false_eq_true, if_false, if_true]
  · intro h1 h2
    exact process_eq_draftPhase o m st h1 h2

/-- Witness for the amended C6: the date/time step answers first on a
concrete audio message carrying a date/time text. -/
theorem c6_witness :
    process_message_background_optimized oOther msgAudioTime stEmpty
      = (stEmpty, replyFx (if wantsTime (pyLower (pyStrip msgAudioTime.body.data))
                           then oOther.timeReply else oOther.dateReply)) :=
  (c6_dispatch_order oOther msgAudioTime stEmpty).1 (by decide)

/-- Counterexample for C7: the 25s wait on the extraction task timing out
yields the fixed `Processing timed out` apology and no web search, even
though the raw text matches the search-intent heuristic — refuting
"times out → heuristic routing". -/
theorem c7_counterexample :
    is_search_intent msgLatestAI.body = true ∧
    (process_message_background_optimized oExtractTimeout msgLatestAI stEmpty).2.replies
      = [processingTimeoutReply] ∧
    (process_message_background_optimized oExtractTimeout msgLatestAI stEmpty).2.webSearches
      = [] := by
  decide

/-- C7 (amended): when the extractor call FAILS (returns no data, which
covers its internal errors and its internal 20s timeout), the message is
routed to web-search handling if the heuristic matches the raw text and
otherwise answered with the generic capability-listing reply; when the
25s dispatcher wait on the extraction task times out, the reply is
the fixed timed-out apology and the heuristic is not consulted. -/
theorem c7_extractor_failure_fallback (o : Oracle) (m : InMsg) (st : ConvState)
    (hdt : isDateTimeQuery (pyLower (pyStrip m.body.data)) = false)
    (hmedia : isAudioMsg m = false)
    (hnodraft : dictGet m.from_number st.drafts = none) :
    (o.extraction = ExtractOutcome.failed → is_search_intent m.body = true →
      (process_message_background_optimized o m st).2.webSearches = [m.body]) ∧
    (o.extraction = ExtractOutcome.failed → is_search_intent m.body = false →
      (process_message_background_optimized o m st).2.replies = [capabilityReply m.body] ∧
      (process_message_background_optimized o m st).2.webSearches = []) ∧
    (o.extraction = ExtractOutcome.timedOut →
      (process_message_background_optimized o m st).2.replies = [processingTimeoutReply] ∧
      (process_message_background_optimized o m st).2.webSearches = []) := by
  have hbase : process_message_background_optimized o m st
      = extractionPhase o m.from_number m.body st := by
    rw [process_eq_draftPhase o m st hdt hmedia,
        draftPhase_none o m.from_number m.body st hnodraft]
  refine ⟨?_, ?_, ?_⟩
  · intro he hs
    rw [hbase, extractionPhase_failed_search o m.from_number m.body st he hs, fallbackSearch]
    cases hsr : o.searchReply <;> rfl
  · intro he hs
    rw [hbase, extractionPhase_failed_nosearch o m.from_number m.body st he hs]
    exact ⟨rfl, rfl⟩
  · intro he
    rw [hbase, extractionPhase_timedOut o m.from_number m.body st he]
    exact ⟨rfl, rfl⟩

/-- Witness for the amended C7: extractor failure with a heuristic match
routes the raw text to web-search handling. -/
theorem c7_witness :
    (process_message_background_optimized oExtractFailed msgLatestAI stEmpty).2.webSearches
      = [msgLatestAI.body] :=
  (c7_extractor_failure_fallback oExtractFailed msgLatestAI stEmpty
      (by decide) (by decide) (by decide)).1 (by decide) (by decide)

/-- C8: the search-intent heuristic is a pure function of the message
text with the four documented reference behaviors, and any single
pattern match suffices once the short/command and keyword-exclusion
guards pass (order-independence of the pattern disjunction). -/
theorem c8_is_search_intent_reference_behavior :
    is_search_intent "What is the latest in AI?" = true ∧
    is_search_intent "Send an email to John" = false ∧
    is_search_intent "create meeting tomorrow 2pm" = false ∧
    is_search_intent "Find best pizza in Downtown Dubai" = false ∧
    (∀ msg r, r ∈ searchPatterns →
      searchShortOrCmd (searchMsgLower msg) = false →
      searchExcluded (searchMsgLower msg) = false →
      reSearch r (searchMsgLower msg) = true →
      is_search_intent msg = true) := by
  refine ⟨by decide, by decide, by decide, by decide, ?_⟩
  intro msg r hr h1 h2 h3
  rw [is_search_intent]
  have hany : searchPatterns.any (fun p => reSearch p (searchMsgLower msg)) = true :=
    List.any_eq_true.mpr ⟨r, hr, h3⟩
  simp only [h1, h2, hany, Bool.false_eq_true, if_false, if_true]

/-- Witness for C8: the order-independence clause applied to a concrete
message matched by the question-word pattern. -/
theorem c8_witness : is_search_intent "What is the latest in EV technology?" = true :=
  c8_is_search_intent_reference_behavior.2.2.2.2 "What is the latest in EV technology?"
    patQuestionMark (by decide) (by decide) (by decide) (by decide)

/-- C9: every sender has at most one pending email draft and at most one
pending place query, and one full background-dispatch step preserves
this map invariant for any message and any external-call outcomes. -/
theorem c9_at_most_one_draft_and_place_per_sender (o : Oracle) (m : InMsg) (st : ConvState)
    (h1 : keysNodup st.drafts) (h2 : keysNodup st.places) :
    keysNodup (process_message_background_optimized o m st).1.drafts ∧
    keysNodup (process_message_background_optimized o m st).1.places ∧
    (∀ k, keyCount k (process_message_background_optimized o m st).1.drafts ≤ 1) ∧
    (∀ k, keyCount k (process_message_background_optimized o m st).1.places ≤ 1) := by
  have h := goodState_process o m st ⟨h1, h2⟩
  exact ⟨h.1, h.2, fun k => keyCount_le_one k h.1, fun k => keyCount_le_one k h.2⟩

/-- Witness for C9 at a concrete state with a pending draft. -/
theorem c9_witness :
    keysNodup (process_message_background_optimized oSendOk msgYes stDraft).1.drafts ∧
    keysNodup (process_message_background_optimized oSendOk msgYes stDraft).1.places ∧
    keyCount "+1555" (process_message_background_optimized oSendOk msgYes stDraft).1.drafts
      ≤ 1 :=
  have h := c9_at_most_one_draft_and_place_per_sender oSendOk msgYes stDraft
    (by decide) (by decide)
  ⟨h.1, h.2.1, h.2.2.1 "+1555"⟩
